import Mathlib

/-!
Verification development for the `react-usewebworker` repository.

The embedding below translates `src/useWebWorker.ts` and
`src/registerWorker.ts` into Lean:

* `Status`, `State`, `Action` mirror the TypeScript types of the same names.
* `workerMessageReducer` mirrors the reducer; the `throw` in its `default`
  branch is modelled with `Except`, so a thrown action yields `Except.error`.
* `HookState` together with `mount`, `rerender`, `deliverMessage`,
  `deliverError`, `deliverMessageError` and `unmount` is a step model of the
  `useWebWorker` hook: `useMemo(createWorker, [createWorker])` is modelled by
  comparing the stored `createDep` identity, the `useEffect` with deps
  `[worker]` by the rebind/terminate block of `rerender`, the `useEffect`
  with deps `[input]` by the dispatch-and-post block, and `useSafeDispatch`
  by `hookDispatch`, which drops actions when `mounted = false`.
* `registerWorker` mirrors the worker-side entry: the caller-supplied
  function is modelled as `Input → Except Err Result` so that a thrown
  exception (`Except.error`) propagates out of the handler uncaught.
-/

namespace ReactUseWebWorker

/-- The five-valued status enumeration of `State.status` in `useWebWorker.ts`. -/
inductive Status where
  | idle
  | pending
  | stale
  | resolved
  | rejected
deriving DecidableEq, Repr

/-- A JavaScript `Error` value, identified by its message. -/
structure Err where
  msg : String
deriving DecidableEq, Repr

/-- The `Action<T>` union type of `useWebWorker.ts` (all five declared variants,
including the `idle` variant that the reducer has no case for). -/
inductive Action (T : Type) where
  | idle
  | pending
  | stale
  | resolved (data : T)
  | rejected (error : Option Err)
deriving DecidableEq

/-- The `State<T>` record type of `useWebWorker.ts`; `null` fields are `none`. -/
structure State (T : Type) where
  status : Status
  result : Option T
  error : Option Err
deriving DecidableEq, Repr

/-- `workerMessageReducer` from `useWebWorker.ts`. The `default` branch of the
TypeScript `switch` throws; that is modelled as `Except.error` carrying the
thrown message. -/
def workerMessageReducer {T : Type} (state : State T) (action : Action T) :
    Except String (State T) :=
  match action with
  | Action.pending =>
      Except.ok { status := Status.pending, result := state.result, error := none }
  | Action.stale =>
      Except.ok { status := Status.stale, result := state.result, error := none }
  | Action.resolved d =>
      Except.ok { status := Status.resolved, result := some d, error := none }
  | Action.rejected e =>
      Except.ok { status := Status.rejected, result := none, error := e }
  | Action.idle =>
      Except.error "Unhandled action type: idle"

/-- Applying the reducer inside React's `useReducer`: for the four actions the
orchestrator actually dispatches the reducer returns normally; the fallback
branch (a thrown `idle` action, which would crash the component) keeps the
state and is dead code on every orchestrator path. -/
def applyAction {T : Type} (s : State T) (a : Action T) : State T :=
  match workerMessageReducer s a with
  | Except.ok s2 => s2
  | Except.error _ => s

/-- The caller-supplied `initialState?: Partial<State<Result>>` argument:
each field may be present (overriding) or absent. -/
structure StateOverride (T : Type) where
  status : Option Status
  result : Option (Option T)
  error : Option (Option Err)

/-- The `reducerState` initialisation in `useWebWorker`:
`{ status: "idle", result: null, error: null, ...initialState }`. -/
def reducerState {T : Type} (initialState : Option (StateOverride T)) : State T :=
  match initialState with
  | none => { status := Status.idle, result := none, error := none }
  | some p =>
      { status := p.status.getD Status.idle,
        result := p.result.getD none,
        error := p.error.getD none }

/-- Step model of one `useWebWorker` subscription. Worker handles are numbered
by creation order; `createDep` and `inputDep` record the identities last seen
by the `useMemo` / `useEffect` dependency arrays; `lastWorker` is the
`lastWorker` ref; `bound` is the worker whose `onmessage`/`onerror`/
`onmessageerror` observers the `[worker]` effect currently has bound;
`terminated` lists workers on which `terminate()` has run; `sent` logs every
`postMessage` as (worker, input); `dispatched` logs every action that passed
the `useSafeDispatch` liveness guard; `mounted` is the guard's ref. -/
structure HookState (Input T : Type) where
  rstate : State T
  mounted : Bool
  nextWorkerId : Nat
  worker : Nat
  createDep : Nat
  lastWorker : Nat
  bound : Option Nat
  inputDep : Input
  terminated : List Nat
  sent : List (Nat × Input)
  dispatched : List (Action T)
deriving DecidableEq

/-- `useSafeDispatch`: forward the action to the reducer while the mounted
flag is true, drop it silently otherwise. -/
def hookDispatch {Input T : Type} (h : HookState Input T) (a : Action T) :
    HookState Input T :=
  if h.mounted then
    { h with rstate := applyAction h.rstate a, dispatched := h.dispatched ++ [a] }
  else h

/-- The action chosen by the `[input]` effect before posting:
`state.status === "resolved" ? stale : pending`. -/
def inputEffectAction {T : Type} (s : State T) : Action T :=
  if s.status = Status.resolved then Action.stale else Action.pending

/-- First activation of the hook with factory identity `c`, input `input` and
initial reducer state `init`: worker 0 is created by `useMemo`, the layout
effect sets `mounted := true`, the `[worker]` effect stores the ref and binds
the observers, and the `[input]` effect dispatches its pre-request action and
posts `input` to `lastWorker.current`. -/
def mount {Input T : Type} (c : Nat) (input : Input) (init : State T) :
    HookState Input T :=
  let h0 : HookState Input T :=
    { rstate := init, mounted := true, nextWorkerId := 1, worker := 0,
      createDep := c, lastWorker := 0, bound := some 0, inputDep := input,
      terminated := [], sent := [], dispatched := [] }
  let h1 := hookDispatch h0 (inputEffectAction h0.rstate)
  { h1 with sent := [(0, input)] }

/-- A re-render of the mounted hook with (possibly new) factory identity `c`
and input `input`. `useMemo` recreates the worker only when `c` differs from
the stored dependency; the `[worker]` effect then runs its previous cleanup
(terminating the old worker) and rebinds ref and observers to the new one;
the `[input]` effect runs only when `input` differs from its stored
dependency, dispatching through the guard and posting to `lastWorker.current`. -/
def rerender {Input T : Type} [DecidableEq Input] (h : HookState Input T)
    (c : Nat) (input : Input) : HookState Input T :=
  let h1 :=
    if c = h.createDep then h
    else
      { h with worker := h.nextWorkerId, createDep := c,
               nextWorkerId := h.nextWorkerId + 1,
               terminated := h.terminated ++ [h.worker],
               lastWorker := h.nextWorkerId, bound := some h.nextWorkerId }
  if input = h.inputDep then h1
  else
    let h2 := hookDispatch h1 (inputEffectAction h1.rstate)
    { h2 with inputDep := input, sent := h2.sent ++ [(h1.lastWorker, input)] }

/-- Worker `w` delivers a success message with payload `d`: its `onmessage`
observer fires only if the hook's observers are currently bound to `w` and
`w` has not been terminated, and dispatches `resolved` through the guard. -/
def deliverMessage {Input T : Type} (h : HookState Input T) (w : Nat) (d : T) :
    HookState Input T :=
  if h.bound = some w ∧ w ∉ h.terminated then
    hookDispatch h (Action.resolved d)
  else h

/-- Worker `w` signals a host-level fault: its `onerror` observer dispatches
`rejected` with the generic `new Error("Worker error")`. -/
def deliverError {Input T : Type} (h : HookState Input T) (w : Nat) :
    HookState Input T :=
  if h.bound = some w ∧ w ∉ h.terminated then
    hookDispatch h (Action.rejected (some { msg := "Worker error" }))
  else h

/-- Worker `w` signals a malformed-message fault: its `onmessageerror`
observer dispatches `rejected` with the generic `new Error("Worker message error")`. -/
def deliverMessageError {Input T : Type} (h : HookState Input T) (w : Nat) :
    HookState Input T :=
  if h.bound = some w ∧ w ∉ h.terminated then
    hookDispatch h (Action.rejected (some { msg := "Worker message error" }))
  else h

/-- Teardown of the subscription: the `[worker]` effect cleanup terminates the
current worker and the layout-effect cleanup flips the liveness flag false. -/
def unmount {Input T : Type} (h : HookState Input T) : HookState Input T :=
  { h with mounted := false, terminated := h.terminated ++ [h.worker] }

/- Worker-side entry, from `registerWorker.ts`. -/

/-- The ambient worker global scope: `self`, with its single mutable
`onmessage` slot. A handler maps one inbound payload to the list of outbound
messages it posts, or propagates an uncaught exception. -/
structure WorkerSelf (Input Result : Type) where
  onmessage : Option (Input → Except Err (List Result))

/-- The handler `registerWorker` installs: compute `func(event.data)` and post
the result back — exactly one outbound message on success; an exception from
`func` is not caught and propagates with no message posted. -/
def registerWorkerHandler {Input Result : Type}
    (func : Input → Except Err Result) (data : Input) : Except Err (List Result) :=
  match func data with
  | Except.ok result => Except.ok [result]
  | Except.error e => Except.error e

/-- `registerWorker` from `registerWorker.ts`: assign the handler to
`self.onmessage` (overwriting any previous handler). -/
def registerWorker {Input Result : Type} (func : Input → Except Err Result)
    (s : WorkerSelf Input Result) : WorkerSelf Input Result :=
  { s with onmessage := some (registerWorkerHandler func) }

/-- A caller-supplied pure function, lifted to the fallible shape of the
embedding (it never throws). -/
def liftPure {Input Result : Type} (f : Input → Result) :
    Input → Except Err Result :=
  fun d => Except.ok (f d)

/- Concrete trace used for the staleness-history analysis: mount, resolve,
then two input changes in a row before any further response. -/

/-- Trace step 0: mount with factory identity 0 and input 10. -/
def traceStep0 : HookState Nat Nat := mount 0 10 (reducerState none)

/-- Trace step 1: worker 0 resolves with payload 42. -/
def traceStep1 : HookState Nat Nat := deliverMessage traceStep0 0 42

/-- Trace step 2: the input identity changes to 11. -/
def traceStep2 : HookState Nat Nat := rerender traceStep1 0 11

/-- Trace step 3: the input identity changes again, to 12, before the next
response lands. -/
def traceStep3 : HookState Nat Nat := rerender traceStep2 0 12

end ReactUseWebWorker

namespace ReactUseWebWorker

/- Theorems about the pure reducer. -/

/-- Claim C1: for every state and every one of the four events
Pending, Stale, Resolved(d), Rejected(e), `workerMessageReducer` returns
exactly the next state of the spec's transition table; in particular `error`
is non-absent only after a Rejected event. -/
theorem reduce_transition_table {T : Type} (s : State T) (d : T) (e : Option Err) :
    workerMessageReducer s Action.pending =
      Except.ok { status := Status.pending, result := s.result, error := none } ∧
    workerMessageReducer s Action.stale =
      Except.ok { status := Status.stale, result := s.result, error := none } ∧
    workerMessageReducer s (Action.resolved d) =
      Except.ok { status := Status.resolved, result := some d, error := none } ∧
    workerMessageReducer s (Action.rejected e) =
      Except.ok { status := Status.rejected, result := none, error := e } :=
  ⟨rfl, rfl, rfl, rfl⟩

/-- Claim C2: Pending and Stale leave `result` exactly equal to the previous
result, Rejected sets `result` to absent regardless of the previous result,
Resolved replaces it with the new data, and these four (plus the reducer-fatal
`idle`) exhaust the action space, so Rejected is the only event clearing
`result` and Resolved the only one replacing it with new data. -/
theorem reduce_result_frame {T : Type} (s : State T) (d : T) (e : Option Err) :
    (workerMessageReducer s Action.pending).map State.result = Except.ok s.result ∧
    (workerMessageReducer s Action.stale).map State.result = Except.ok s.result ∧
    (workerMessageReducer s (Action.rejected e)).map State.result = Except.ok none ∧
    (workerMessageReducer s (Action.resolved d)).map State.result =
      Except.ok (some d) ∧
    (∀ a : Action T, a = Action.idle ∨ a = Action.pending ∨ a = Action.stale ∨
      (∃ d2, a = Action.resolved d2) ∨ (∃ e2, a = Action.rejected e2)) := by
  refine ⟨rfl, rfl, rfl, rfl, ?_⟩
  intro a
  cases a with
  | idle => exact Or.inl rfl
  | pending => exact Or.inr (Or.inl rfl)
  | stale => exact Or.inr (Or.inr (Or.inl rfl))
  | resolved d2 => exact Or.inr (Or.inr (Or.inr (Or.inl ⟨d2, rfl⟩)))
  | rejected e2 => exact Or.inr (Or.inr (Or.inr (Or.inr ⟨e2, rfl⟩)))

/-- Claim C9: the declared `Action` type has a fifth variant `idle` for which
the reducer has no case: the `idle` action falls to the default branch and
throws an "Unhandled action type" error, while the four handled events all
return normally. -/
theorem reducer_idle_action_throws {T : Type} (s : State T) (d : T) (e : Option Err) :
    workerMessageReducer s Action.idle =
      Except.error "Unhandled action type: idle" ∧
    (∃ s1, workerMessageReducer s Action.pending = Except.ok s1) ∧
    (∃ s2, workerMessageReducer s Action.stale = Except.ok s2) ∧
    (∃ s3, workerMessageReducer s (Action.resolved d) = Except.ok s3) ∧
    (∃ s4, workerMessageReducer s (Action.rejected e) = Except.ok s4) :=
  ⟨rfl, ⟨_, rfl⟩, ⟨_, rfl⟩, ⟨_, rfl⟩, ⟨_, rfl⟩⟩

/-- Claim C10: no transition of the reducer on the four dispatchable events
ever produces the `idle` status; `idle` occurs only in the default initial
state (absent caller override). -/
theorem reducer_never_idle {T : Type} (s s2 : State T) (a : Action T)
    (ha : a ≠ Action.idle) (h : workerMessageReducer s a = Except.ok s2) :
    s2.status ≠ Status.idle ∧
    (reducerState none : State T) = { status := Status.idle, result := none, error := none } := by
  refine ⟨?_, rfl⟩
  cases a with
  | idle => exact absurd rfl ha
  | pending =>
      simp only [workerMessageReducer, Except.ok.injEq] at h
      rw [← h]
      simp
  | stale =>
      simp only [workerMessageReducer, Except.ok.injEq] at h
      rw [← h]
      simp
  | resolved d =>
      simp only [workerMessageReducer, Except.ok.injEq] at h
      rw [← h]
      simp
  | rejected e =>
      simp only [workerMessageReducer, Except.ok.injEq] at h
      rw [← h]
      simp

/-- Claim C3: once the liveness flag is false (teardown), every dispatch
through the guarded dispatcher — and every late-firing bound observer — leaves
the hook state unchanged, for a single event and for any sequence of events;
while the flag is true the dispatcher forwards every event unmodified to the
reducer, and unmount flips the flag to false. -/
theorem safe_dispatch_guard {Input T : Type} (hdead halive : HookState Input T)
    (a : Action T) (acts : List (Action T)) (w : Nat) (d : T)
    (h1 : hdead.mounted = false) (h2 : halive.mounted = true) :
    hookDispatch hdead a = hdead ∧
    acts.foldl hookDispatch hdead = hdead ∧
    deliverMessage hdead w d = hdead ∧
    deliverError hdead w = hdead ∧
    deliverMessageError hdead w = hdead ∧
    (unmount halive).mounted = false ∧
    (hookDispatch halive a).rstate = applyAction halive.rstate a ∧
    (hookDispatch halive a).dispatched = halive.dispatched ++ [a] := by
  have hd : ∀ b : Action T, hookDispatch hdead b = hdead := by
    intro b
    simp [hookDispatch, h1]
  refine ⟨hd a, ?_, ?_, ?_, ?_, rfl, ?_, ?_⟩
  · induction acts with
    | nil => rfl
    | cons x xs ih => simp [List.foldl_cons, hd x, ih]
  · simp [deliverMessage, hd]
  · simp [deliverError, hd]
  · simp [deliverMessageError, hd]
  · simp [hookDispatch, h2]
  · simp [hookDispatch, h2]

/-- Witness for `safe_dispatch_guard`: a freshly mounted then unmounted hook
drops a late `pending` dispatch. -/
theorem safe_dispatch_guard_witness :
    (unmount traceStep0).mounted = false ∧
    traceStep0.mounted = true ∧
    hookDispatch (unmount traceStep0) Action.pending = unmount traceStep0 :=
  ⟨by decide, by decide,
    (safe_dispatch_guard (unmount traceStep0) traceStep0 Action.pending []
      0 7 (by decide) (by decide)).1⟩

/-- Counterexample to claim C4 as stated: mounting with factory identity 0 and
input 5 leaves a request pending; changing the factory identity to 1 (input
unchanged) terminates worker 0 and creates worker 1, but the message log still
contains only the original post to worker 0 — no fresh request is sent to the
new handle. -/
theorem recipe_change_counterexample :
    (mount 0 (5:Nat) (reducerState none : State Nat)).rstate.status =
      Status.pending ∧
    (rerender (mount 0 (5:Nat) (reducerState none : State Nat)) 1 5).worker = 1 ∧
    (rerender (mount 0 (5:Nat) (reducerState none : State Nat)) 1 5).terminated =
      [0] ∧
    (rerender (mount 0 (5:Nat) (reducerState none : State Nat)) 1 5).sent =
      [(0, 5)] ∧
    ((rerender (mount 0 (5:Nat) (reducerState none : State Nat)) 1 5).sent.filter
      (fun p => p.1 == 1)) = [] :=
  ⟨rfl, rfl, rfl, rfl, rfl⟩

/-- Claim C4 as amended: when the factory identity changes, the orchestrator
terminates the prior handle (whose observers never fire afterward), creates a
new handle from the new factory and rebinds the ref and observers to it — but
it does not re-send the current input; the message log, reducer state and
dispatch log are unchanged until the input identity itself next changes. -/
theorem recipe_change_recreates_handle {Input T : Type} [DecidableEq Input]
    (h : HookState Input T) (c : Nat) (d : T) (hc : c ≠ h.createDep) :
    (rerender h c h.inputDep).terminated = h.terminated ++ [h.worker] ∧
    (rerender h c h.inputDep).worker = h.nextWorkerId ∧
    (rerender h c h.inputDep).bound = some h.nextWorkerId ∧
    (rerender h c h.inputDep).lastWorker = h.nextWorkerId ∧
    (rerender h c h.inputDep).sent = h.sent ∧
    (rerender h c h.inputDep).rstate = h.rstate ∧
    (rerender h c h.inputDep).dispatched = h.dispatched ∧
    deliverMessage (rerender h c h.inputDep) h.worker d = rerender h c h.inputDep ∧
    deliverError (rerender h c h.inputDep) h.worker = rerender h c h.inputDep := by
  have hr : rerender h c h.inputDep =
      { h with worker := h.nextWorkerId, createDep := c,
               nextWorkerId := h.nextWorkerId + 1,
               terminated := h.terminated ++ [h.worker],
               lastWorker := h.nextWorkerId, bound := some h.nextWorkerId } := by
    simp [rerender, hc]
  rw [hr]
  refine ⟨rfl, rfl, rfl, rfl, rfl, rfl, rfl, ?_, ?_⟩
  · simp [deliverMessage, List.mem_append]
  · simp [deliverError, List.mem_append]

/-- Witness for `recipe_change_recreates_handle` on the concrete mounted hook. -/
theorem recipe_change_recreates_handle_witness :
    (1 : Nat) ≠ traceStep0.createDep ∧
    (rerender traceStep0 1 traceStep0.inputDep).terminated =
      traceStep0.terminated ++ [traceStep0.worker] :=
  ⟨by decide, (recipe_change_recreates_handle traceStep0 1 (99:Nat) (by decide)).1⟩

/-- Claim C5: on an input identity change the mounted orchestrator dispatches
exactly one pre-request action — `stale` when the current status is `resolved`
and `pending` otherwise — and then posts the new input to the current handle
held in the `lastWorker` ref, without touching the worker or its binding. -/
theorem input_change_dispatch {Input T : Type} [DecidableEq Input]
    (h : HookState Input T) (inp : Input) (hm : h.mounted = true)
    (hi : inp ≠ h.inputDep) :
    (rerender h h.createDep inp).rstate =
      applyAction h.rstate (inputEffectAction h.rstate) ∧
    inputEffectAction h.rstate =
      (if h.rstate.status = Status.resolved then Action.stale else Action.pending) ∧
    (rerender h h.createDep inp).dispatched =
      h.dispatched ++ [inputEffectAction h.rstate] ∧
    (rerender h h.createDep inp).sent = h.sent ++ [(h.lastWorker, inp)] ∧
    (rerender h h.createDep inp).worker = h.worker ∧
    (rerender h h.createDep inp).bound = h.bound := by
  have hr : rerender h h.createDep inp =
      { h with rstate := applyAction h.rstate (inputEffectAction h.rstate),
               dispatched := h.dispatched ++ [inputEffectAction h.rstate],
               inputDep := inp, sent := h.sent ++ [(h.lastWorker, inp)] } := by
    simp [rerender, hi, hookDispatch, hm]
  rw [hr]
  exact ⟨rfl, rfl, rfl, rfl, rfl, rfl⟩

/-- Witness for `input_change_dispatch`: after the first result resolves,
changing the input from 10 to 11 dispatches `stale`. -/
theorem input_change_dispatch_witness :
    traceStep1.mounted = true ∧
    (11:Nat) ≠ traceStep1.inputDep ∧
    (rerender traceStep1 traceStep1.createDep (11:Nat)).dispatched =
      traceStep1.dispatched ++ [inputEffectAction traceStep1.rstate] :=
  ⟨by decide, by decide,
    (input_change_dispatch traceStep1 11 (by decide) (by decide)).2.2.1⟩

/-- Counterexample to claim C6 as stated: in the concrete history
mount(input 10) → resolve(42) → input change(11) → input change(12), a
`Resolved` event fired (and no `Rejected` fired after it), yet the second
consecutive input change dispatches `pending`, not `stale` — the dispatch log
ends in `pending` and the resulting status is `pending`. -/
theorem stale_history_counterexample :
    traceStep3.dispatched =
      [Action.pending, Action.resolved 42, Action.stale, Action.pending] ∧
    traceStep2.rstate.status = Status.stale ∧
    traceStep3.rstate.status = Status.pending ∧
    Status.pending ≠ Status.stale :=
  ⟨rfl, rfl, rfl, by decide⟩

/-- When the current status is not `resolved`, the `[input]` effect chooses
the `pending` action. -/
theorem inputEffectAction_of_not_resolved {T : Type} (s : State T)
    (hs : s.status ≠ Status.resolved) : inputEffectAction s = Action.pending := by
  simp [inputEffectAction, hs]

/-- Claim C6 as amended: the orchestrator emits `stale` exactly when the
current status is `resolved` (equivalently, when the immediately preceding
guarded dispatch was a `Resolved` delivery); after any pre-request dispatch
the status is no longer `resolved`, so when several input changes occur in a
row before the next response, every change after the first dispatches
`pending`. -/
theorem stale_only_from_resolved {Input T : Type} [DecidableEq Input]
    (h : HookState Input T) (i1 i2 : Input) (hm : h.mounted = true)
    (h1 : i1 ≠ h.inputDep) (h2 : i2 ≠ i1) :
    (inputEffectAction h.rstate = Action.stale ↔
      h.rstate.status = Status.resolved) ∧
    ((rerender h h.createDep i1).rstate.status = Status.stale ↔
      h.rstate.status = Status.resolved) ∧
    (rerender (rerender h h.createDep i1) h.createDep i2).rstate.status =
      Status.pending := by
  have hstatus : ∀ s : State T,
      (applyAction s (inputEffectAction s)).status ≠ Status.resolved ∧
      ((applyAction s (inputEffectAction s)).status = Status.stale ↔
        s.status = Status.resolved) := by
    intro s
    by_cases hs : s.status = Status.resolved <;>
      simp [inputEffectAction, applyAction, workerMessageReducer, hs]
  have key : ∀ (g : HookState Input T) (j : Input), g.mounted = true →
      j ≠ g.inputDep →
      (rerender g g.createDep j).rstate =
        applyAction g.rstate (inputEffectAction g.rstate) ∧
      (rerender g g.createDep j).mounted = true ∧
      (rerender g g.createDep j).createDep = g.createDep ∧
      (rerender g g.createDep j).inputDep = j := by
    intro g j hgm hj
    have hg : rerender g g.createDep j =
        { g with rstate := applyAction g.rstate (inputEffectAction g.rstate),
                 dispatched := g.dispatched ++ [inputEffectAction g.rstate],
                 inputDep := j, sent := g.sent ++ [(g.lastWorker, j)] } := by
      simp [rerender, hj, hookDispatch, hgm]
    rw [hg]
    exact ⟨rfl, hgm, rfl, rfl⟩
  obtain ⟨k1, k2, k3, k4⟩ := key h i1 hm h1
  have h2b : i2 ≠ (rerender h h.createDep i1).inputDep := by
    rw [k4]
    exact h2
  have keyb := key (rerender h h.createDep i1) i2 k2 h2b
  rw [k3] at keyb
  obtain ⟨m1, -, -, -⟩ := keyb
  refine ⟨?_, ?_, ?_⟩
  · by_cases hs : h.rstate.status = Status.resolved <;> simp [inputEffectAction, hs]
  · rw [k1]
    exact (hstatus h.rstate).2
  · rw [m1, k1, inputEffectAction_of_not_resolved _ (hstatus h.rstate).1]
    rfl

/-- Witness for `stale_only_from_resolved`: from the resolved state, the first
input change yields `stale`, the second consecutive one yields `pending`. -/
theorem stale_only_from_resolved_witness :
    traceStep1.mounted = true ∧
    (11:Nat) ≠ traceStep1.inputDep ∧
    (12:Nat) ≠ (11:Nat) ∧
    (rerender (rerender traceStep1 traceStep1.createDep (11:Nat))
        traceStep1.createDep (12:Nat)).rstate.status = Status.pending :=
  ⟨by decide, by decide, by decide,
    (stale_only_from_resolved traceStep1 11 12 (by decide) (by decide)
      (by decide)).2.2⟩

/-- Claim C7: `registerWorker` installs on `self.onmessage` a handler that, on
each inbound payload `x`, synchronously computes `f x` and emits exactly one
outbound message carrying `f x`; the handler keeps no state between messages,
so the responses to any message sequence are the pointwise image of `f`. -/
theorem register_worker_single_response {Input Result : Type}
    (f : Input → Result) (x : Input) (s : WorkerSelf Input Result)
    (msgs : List Input) :
    (registerWorker (liftPure f) s).onmessage =
      some (registerWorkerHandler (liftPure f)) ∧
    registerWorkerHandler (liftPure f) x = Except.ok [f x] ∧
    msgs.map (registerWorkerHandler (liftPure f)) =
      msgs.map (fun d => Except.ok [f d]) :=
  ⟨rfl, rfl, rfl⟩

/-- Claim C8: when the supplied function throws on a payload, the worker entry
does not catch the exception — it propagates with no success message emitted —
and on the hook side the bound fault observer dispatches `rejected` carrying
the generic "Worker error", not the underlying cause. -/
theorem uncaught_fault_rejected {I R J T : Type}
    (f : I → Except Err R) (x : I) (e : Err) (hf : f x = Except.error e)
    (h : HookState J T) (w : Nat) (hm : h.mounted = true)
    (hb : h.bound = some w) (ht : w ∉ h.terminated) :
    registerWorkerHandler f x = Except.error e ∧
    (deliverError h w).rstate =
      { status := Status.rejected, result := none,
        error := some { msg := "Worker error" } } ∧
    (deliverError h w).dispatched =
      h.dispatched ++ [Action.rejected (some { msg := "Worker error" })] := by
  refine ⟨?_, ?_, ?_⟩
  · simp [registerWorkerHandler, hf]
  · simp [deliverError, hb, ht, hookDispatch, hm, applyAction, workerMessageReducer]
  · simp [deliverError, hb, ht, hookDispatch, hm]

/-- Witness for `uncaught_fault_rejected`: a function that always throws, and
the freshly mounted hook observing worker 0's fault. -/
theorem uncaught_fault_rejected_witness :
    (fun _ : Nat => (Except.error { msg := "boom" } : Except Err Nat)) 0 =
      Except.error { msg := "boom" } ∧
    traceStep0.mounted = true ∧
    traceStep0.bound = some 0 ∧
    (0:Nat) ∉ traceStep0.terminated ∧
    (deliverError traceStep0 0).rstate =
      { status := Status.rejected, result := none,
        error := some { msg := "Worker error" } } :=
  ⟨rfl, by decide, by decide, by decide,
    (uncaught_fault_rejected
      (fun _ : Nat => (Except.error { msg := "boom" } : Except Err Nat)) 0
      { msg := "boom" } rfl traceStep0 0 (by decide) (by decide) (by decide)).2.1⟩

/-- Witness for `reducer_never_idle` at a concrete state and action. -/
theorem reducer_never_idle_witness :
    ({ status := Status.pending, result := some 3, error := none } : State Nat).status ≠
        Status.idle ∧
    (reducerState none : State Nat) =
      { status := Status.idle, result := none, error := none } := by
  have h := reducer_never_idle
    ({ status := Status.resolved, result := some 3, error := none } : State Nat)
    ({ status := Status.pending, result := some 3, error := none } : State Nat)
    (Action.pending) (by decide)
    (by rfl)
  exact h

end ReactUseWebWorker
